import Mathlib

/-!
Verification development for the Mindual chat client (`src/web/src/App.jsx`).

The client is a single-page chat UI: a submission pipeline (`handleSubmit`)
that posts the user question to a RAG backend and appends derived messages to
an in-memory session, a calendar widget (`calendar`, `fetchEvents`), and
render-time source-image resolution. We shallowly embed the relevant parts of
`App.jsx` as pure Lean functions: network responses become explicit inductive
values passed to the embedded handler, React state becomes an explicit
`AppState` record, and the sequential execution order of the `async` handler
becomes an explicit action trace.
-/

namespace Mindual

/-- JavaScript string truthiness for a nullable string: `null`/`undefined`
and the empty string are falsy, every other string is truthy. -/
def jsTruthyStr : Option String → Bool
  | none => false
  | some s => s ≠ ""

/-- JavaScript number truthiness for a nullable number: `null`/`undefined`
and `0` are falsy (page numbers in the payload are non-negative integers). -/
def jsTruthyNum : Option Nat → Bool
  | none => false
  | some n => n ≠ 0

/-- Embedding of JavaScript `s.trim()`: strip leading and trailing
whitespace characters. -/
def jsTrim (s : String) : String :=
  String.mk
    (((s.data.dropWhile Char.isWhitespace).reverse.dropWhile Char.isWhitespace).reverse)

/-- Character-list substring search: does `sub` occur contiguously in the
second list? -/
def charsInclude (sub : List Char) : List Char → Bool
  | [] => sub.isEmpty
  | c :: rest => sub.isPrefixOf (c :: rest) || charsInclude sub rest

/-- Embedding of JavaScript `s.includes(sub)`: substring containment. -/
def jsIncludes (s sub : String) : Bool :=
  charsInclude sub.data s.data

/-- Embedding of JavaScript `s.startsWith(pre)`: prefix test. -/
def jsStartsWith (s pre : String) : Bool :=
  pre.data.isPrefixOf s.data

/-- One chat message, as built by `handleSubmit` in `App.jsx`.
`variant` and `sourceImage` are only ever set on agent messages;
`imageUrl` only on user messages. -/
structure Message where
  id : String
  role : String
  name : String
  content : String
  imageUrl : Option String := none
  variant : Option String := none
  sourceImage : Option String := none
deriving Repr, DecidableEq

/-- A calendar event as returned by the calendar backend
(`{ id, date, time, title, location }`), treated as opaque pass-through. -/
structure CalendarEvent where
  id : Nat
  date : String
  time : String
  title : String
  location : String
deriving Repr, DecidableEq

/-- The attached image file; only its name is observable in the embedded
client (used for the `(이미지 전송: name)` fallback content). -/
structure ImageFile where
  name : String
deriving Repr, DecidableEq

/-- One element of the response `pages` array (`PageInfo`): every field is
optional, and the image URL may appear under three aliases. -/
structure PageInfo where
  page : Option Nat := none
  page_number : Option Nat := none
  image_base64 : Option String := none
  image_url : Option String := none
  page_image : Option String := none
  pageImage : Option String := none
  image_path : Option String := none
deriving Repr, DecidableEq

/-- The raw `pages` field of the response body: it is either a JSON array of
page objects or some non-array value; `App.jsx` checks `Array.isArray`. -/
inductive PagesValue where
  | arr (l : List PageInfo)
  | nonArray
deriving Repr, DecidableEq

/-- A parsed successful response body of the question-answering endpoint:
`{ answer | result, intent?, pages? }`, every field optional. -/
structure RagPayload where
  answer : Option String := none
  result : Option String := none
  intent : Option String := none
  pages : Option PagesValue := none
deriving Repr, DecidableEq

/-- Outcome of the `fetch(RAG_API_URL, ...)` round trip as observed by
`handleSubmit`: a 2xx response with a parsed JSON body, a non-2xx status,
a thrown network error, or a 2xx response whose body fails to parse. -/
inductive RagResponse where
  | success (data : RagPayload)
  | httpError (status : Nat)
  | networkError
  | parseError
deriving Repr, DecidableEq

/-- Outcome of the calendar events request as observed by `fetchEvents`:
a 2xx response with an optional `events` list, or any failure
(non-2xx status, network error, or body parse error). -/
inductive CalResponse where
  | success (events : Option (List CalendarEvent))
  | failure
deriving Repr, DecidableEq

/-- The React state of `App` that the claims are about: the message sequence,
the question input, the loading flag, the attached file with its preview,
and the fetched calendar events. -/
structure AppState where
  messages : List Message
  question : String
  loading : Bool
  imageFile : Option ImageFile
  imagePreviewUrl : Option String
  calendarEvents : List CalendarEvent
deriving Repr, DecidableEq

/-- Embedding of `BACKEND_BASE_URL = new URL(RAG_API_URL).origin` where
`RAG_API_URL = 'http://127.0.0.1:8000/ask'`: the origin of that URL. -/
def BACKEND_BASE_URL : String := "http://127.0.0.1:8000"

/-- Embedding of the `src` attribute computation for an agent message's
source image (`App.jsx` render, lines 319-326): the resolved value is used
as-is when it starts with `data:` or `http`; otherwise it is prefixed with
the backend origin, inserting one `/` unless the value already starts
with `/`. -/
def renderSrc (sourceImage : String) : String :=
  if jsStartsWith sourceImage "data:" || jsStartsWith sourceImage "http" then
    sourceImage
  else
    BACKEND_BASE_URL ++ (if jsStartsWith sourceImage "/" then "" else "/") ++ sourceImage

/-- Embedding of the source-image selection in `handleSubmit`
(`App.jsx` lines 198-215): `image_base64`, else the URL alias chain
`image_url ?? page_image ?? pageImage`, else `image_path`, else `null`;
each guard is a JavaScript truthiness test on the selected value. -/
def resolveSourceImage (firstPage : PageInfo) : Option String :=
  let pageImageBase64 := firstPage.image_base64
  let pageImageUrl := (firstPage.image_url.or firstPage.page_image).or firstPage.pageImage
  let pageImagePath := firstPage.image_path
  if jsTruthyStr pageImageBase64 then pageImageBase64
  else if jsTruthyStr pageImageUrl then pageImageUrl
  else if jsTruthyStr pageImagePath then pageImagePath
  else none

/-- Embedding of `data.answer ?? data.result ?? '응답을 가져오지 못했어요.'`. -/
def parseAnswerText (data : RagPayload) : String :=
  (data.answer.or data.result).getD "응답을 가져오지 못했어요."

/-- Embedding of `data.intent ?? 'rag'`. -/
def parseIntent (data : RagPayload) : String :=
  data.intent.getD "rag"

/-- Embedding of `Array.isArray(data.pages) ? data.pages : []`. -/
def parsePages (data : RagPayload) : List PageInfo :=
  match data.pages with
  | some (.arr l) => l
  | _ => []

/-- The fixed Korean apology content appended on the failure path. -/
def apologyText : String :=
  "죄송해요, RAG 서버에 연결하는 데 문제가 발생했습니다.\n서버 상태를 확인한 후 다시 시도해 주세요."

/-- Embedding of `fetchEvents` (`App.jsx` lines 71-83): on success set the
event list to `data.events || []`; on any failure (non-2xx throws, network
error, parse error) set it to `[]`. Only `calendarEvents` is touched. -/
def fetchEvents (s : AppState) (resp : CalResponse) : AppState :=
  match resp with
  | .success events => { s with calendarEvents := events.getD [] }
  | .failure => { s with calendarEvents := [] }

/-- The multipart request body built by `handleSubmit`: `query` (trimmed
text), `k` (the fixed string `"5"`), and the optional attached `file`. -/
structure RagRequest where
  query : String
  k : String
  file : Option ImageFile
deriving Repr, DecidableEq

/-- One observable step of the submission pipeline, in execution order:
state-setter calls, the outgoing network request, and the awaited calendar
refresh. `fetchCalendarEvents` marks the completed `await fetchEvents()`. -/
inductive Action where
  | appendMessage (m : Message)
  | setQuestion (q : String)
  | setLoading (b : Bool)
  | setImagePreviewUrl (u : Option String)
  | sendRequest (r : RagRequest)
  | fetchCalendarEvents
  | setImageFile (f : Option ImageFile)
  | clearFileInput
deriving Repr, DecidableEq

/-- Result of one `handleSubmit` invocation: the final state, the network
request issued (`none` when the guard rejected the submit), and the trace
of observable steps in the order the handler performs them. -/
structure SubmitResult where
  state : AppState
  request : Option RagRequest
  trace : List Action
deriving Repr, DecidableEq

/-- The submit guard (`App.jsx` line 144): `(!trimmed && !imageFile) || loading`. -/
def submitRejected (s : AppState) : Bool :=
  ((jsTrim s.question) == "" && s.imageFile.isNone) || s.loading

/-- The optimistic user message (`App.jsx` lines 147-153): content is the
trimmed text, falling back to the image-sent placeholder (JS `||`, so the
empty trimmed string falls through); `imageUrl` is the preview URL when a
file is attached. -/
def mkUserMessage (s : AppState) (now : Nat) : Message :=
  let trimmed := (jsTrim s.question)
  { id := "user-" ++ toString now
    role := "user"
    name := "나"
    content :=
      if trimmed ≠ "" then trimmed
      else
        match s.imageFile with
        | some f => "(이미지 전송: " ++ f.name ++ ")"
        | none => "(이미지 전송)"
    imageUrl := if s.imageFile.isSome then s.imagePreviewUrl else none }

/-- The outgoing multipart request (`App.jsx` lines 162-168). -/
def mkRequest (s : AppState) : RagRequest :=
  { query := (jsTrim s.question), k := "5", file := s.imageFile }

/-- Embedding of the citation decoration (`App.jsx` lines 202-205): append
the `(참고: 매뉴얼 p.N 기반 답변)` line when the page number is truthy and
the answer does not already contain `참고:`. -/
def decorateAnswer (answerText : String) (pageNum : Option Nat) : String :=
  if jsTruthyNum pageNum && !(jsIncludes answerText "참고:") then
    answerText ++ "\n\n(참고: 매뉴얼 p." ++ toString (pageNum.getD 0) ++ " 기반 답변)"
  else answerText

/-- The agent message built on the success path (`App.jsx` lines 179-225):
when the intent is not `reminder` and the pages list is non-empty, the
answer is decorated from the first page and a source image resolved;
`variant` is `reminder` exactly when the intent is `reminder`. -/
def mkAgentMessage (now2 : Nat) (data : RagPayload) : Message :=
  let answerText := parseAnswerText data
  let isReminder := parseIntent data == "reminder"
  let pages := parsePages data
  let decorated :=
    match isReminder, pages with
    | false, firstPage :: _ =>
        (decorateAnswer answerText (firstPage.page.or firstPage.page_number),
         resolveSourceImage firstPage)
    | _, _ => (answerText, none)
  { id := "agent-" ++ toString now2
    role := "agent"
    name := "Mindual"
    content := decorated.1
    variant := if isReminder then some "reminder" else none
    sourceImage := decorated.2 }

/-- The agent message built on the failure path (`App.jsx` lines 234-240):
the fixed apology text, no variant, no source image. -/
def mkApologyMessage (now2 : Nat) : Message :=
  { id := "agent-" ++ toString now2
    role := "agent"
    name := "Mindual"
    content := apologyText }

/-- Embedding of `handleSubmit` (`App.jsx` lines 140-249). `now` and `now2`
stand for the two `Date.now()` calls; `resp` is the outcome of the POST to
the question-answering endpoint and `calResp` the outcome of the calendar
refresh performed when the intent is `reminder`. The guard on line 144
rejects the submit (identity state, no request, empty trace); otherwise the
user message is appended optimistically, the request is sent, and the
success or failure path runs followed by the `finally` block. -/
def handleSubmit (s : AppState) (now now2 : Nat) (resp : RagResponse)
    (calResp : CalResponse) : SubmitResult :=
  if submitRejected s then
    { state := s, request := none, trace := [] }
  else
    let userMessage := mkUserMessage s now
    let s1 : AppState :=
      { s with
        messages := s.messages ++ [userMessage]
        question := ""
        loading := true
        imagePreviewUrl := none }
    let req := mkRequest s
    match resp with
    | .success data =>
        let agentMessage := mkAgentMessage now2 data
        let isReminder := parseIntent data == "reminder"
        let s2 := { s1 with messages := s1.messages ++ [agentMessage] }
        let s3 := if isReminder then fetchEvents s2 calResp else s2
        let s4 := { s3 with loading := false, imageFile := none }
        { state := s4
          request := some req
          trace :=
            [.appendMessage userMessage, .setQuestion "", .setLoading true,
             .setImagePreviewUrl none, .sendRequest req,
             .appendMessage agentMessage]
            ++ (if isReminder then [Action.fetchCalendarEvents] else [])
            ++ [.setLoading false, .setImageFile none, .clearFileInput] }
    | _ =>
        let agentMessage := mkApologyMessage now2
        let s2 := { s1 with messages := s1.messages ++ [agentMessage] }
        let s4 := { s2 with loading := false, imageFile := none }
        { state := s4
          request := some req
          trace :=
            [.appendMessage userMessage, .setQuestion "", .setLoading true,
             .setImagePreviewUrl none, .sendRequest req,
             .appendMessage agentMessage, .setLoading false,
             .setImageFile none, .clearFileInput] }

/-- One row of the chat window: a stored message, or the transient
`thinking` placeholder shown while `loading` is set. -/
inductive ChatRow where
  | message (m : Message)
  | thinking
deriving Repr, DecidableEq

/-- Embedding of the chat-window render (`App.jsx` lines 277-348): one row
per stored message in order, plus the `thinking` row exactly when the
loading flag is set. -/
def renderRows (s : AppState) : List ChatRow :=
  s.messages.map ChatRow.message ++ (if s.loading then [ChatRow.thinking] else [])

/-- Gregorian leap-year rule, as implemented by the JavaScript `Date`
month arithmetic that `calendar` relies on. -/
def isLeapYear (y : Nat) : Bool :=
  (y % 4 == 0 && y % 100 != 0) || y % 400 == 0

/-- Embedding of `new Date(year, monthIndex + 1, 0).getDate()`: the number
of days in the month with 0-based index `monthIndex`. -/
def daysInMonth (year monthIndex : Nat) : Nat :=
  match monthIndex with
  | 0 => 31
  | 1 => if isLeapYear year then 29 else 28
  | 2 => 31
  | 3 => 30
  | 4 => 31
  | 5 => 30
  | 6 => 31
  | 7 => 31
  | 8 => 30
  | 9 => 31
  | 10 => 30
  | _ => 31

/-- Embedding of `new Date(year, monthIndex, day).getDay()`: the weekday
(Sunday = 0) of the given proleptic-Gregorian date, via Sakamoto's
congruence. -/
def dayOfWeek (year monthIndex day : Nat) : Nat :=
  let m := monthIndex + 1
  let t := [0, 3, 2, 5, 0, 3, 5, 1, 4, 6, 2, 4]
  let y := if m < 3 then year - 1 else year
  (y + y / 4 - y / 100 + y / 400 + t.getD (m - 1) 0 + day) % 7

/-- Embedding of JavaScript `String.prototype.padStart(2, '0')`. -/
def padStart2 (s : String) : String :=
  if s.length < 2 then String.mk (List.replicate (2 - s.length) '0') ++ s else s

/-- Embedding of `formatISODate` (`App.jsx` lines 17-22) applied to the
valid date `new Date(year, monthIndex, day)`: the year, the 1-based month
padded to two digits, and the day padded to two digits, dash-separated. -/
def formatISODate (year monthIndex day : Nat) : String :=
  toString year ++ "-" ++ padStart2 (toString (monthIndex + 1)) ++ "-"
    ++ padStart2 (toString day)

/-- One real calendar cell: its ISO date key, display day number, and the
reference-date marker. Empty slots are `none` in the cell list. -/
structure CalendarCell where
  key : String
  label : Nat
  isToday : Bool
deriving Repr, DecidableEq

/-- The computed calendar view: the month label and the padded cell grid. -/
structure CalendarView where
  label : String
  cells : List (Option CalendarCell)
deriving Repr, DecidableEq

/-- Embedding of the `calendar` memo (`App.jsx` lines 36-66) for the
reference date `(year, monthIndex, todayDay)`: leading `null` cells up to
the weekday of day 1, one real cell per day of the month, then trailing
`null` cells until the length is a multiple of 7 (the `while` loop pushes
`(7 - len % 7) % 7` nulls). -/
def calendar (year monthIndex todayDay : Nat) : CalendarView :=
  let startWeekday := dayOfWeek year monthIndex 1
  let days := daysInMonth year monthIndex
  let leading : List (Option CalendarCell) := List.replicate startWeekday none
  let realCells : List (Option CalendarCell) :=
    (List.range days).map (fun i =>
      some { key := formatISODate year monthIndex (i + 1)
             label := i + 1
             isToday := (i + 1) == todayDay })
  let cells := leading ++ realCells
  let padded := cells ++ List.replicate ((7 - cells.length % 7) % 7) none
  { label := toString year ++ "년 " ++ toString (monthIndex + 1) ++ "월"
    cells := padded }

/-- A concrete idle state with a non-empty question, used to exercise the
pipeline on concrete inputs. -/
def demoState : AppState :=
  { messages := [], question := "질문", loading := false, imageFile := none,
    imagePreviewUrl := none, calendarEvents := [] }

/-- A concrete successful payload whose first cited page has page number 0:
JavaScript treats `0` as falsy in the citation guard. -/
def pageZeroData : RagPayload :=
  { answer := some "모름", pages := some (.arr [{ page := some 0 }]) }

/-- A concrete successful payload whose first cited page has page number 7. -/
def pageSevenData : RagPayload :=
  { answer := some "모름", pages := some (.arr [{ page := some 7 }]) }

/-- A concrete cited page whose embedded-image field is present but empty:
JavaScript treats the empty string as falsy in the resolution guards. -/
def emptyBase64Page : PageInfo :=
  { image_base64 := some "", image_url := some "https://x/y.png",
    image_path := some "/local/p.png" }

/-! Section: Helper lemmas -/

/-- Two successful payloads that parse to the same agent message and the
same intent drive `handleSubmit` to the same result. -/
theorem handleSubmit_success_congr (s : AppState) (now now2 : Nat)
    (calResp : CalResponse) (d1 d2 : RagPayload)
    (h1 : mkAgentMessage now2 d1 = mkAgentMessage now2 d2)
    (h2 : parseIntent d1 = parseIntent d2) :
    handleSubmit s now now2 (.success d1) calResp
      = handleSubmit s now now2 (.success d2) calResp := by
  unfold handleSubmit
  split
  · rfl
  · simp only [h1, h2]

/-- The calendar fetch never touches the message sequence. -/
theorem fetchEvents_preserves_messages (s : AppState) (r : CalResponse) :
    (fetchEvents s r).messages = s.messages := by
  cases r <;> rfl

/-- The calendar fetch never touches the loading flag. -/
theorem fetchEvents_preserves_loading (s : AppState) (r : CalResponse) :
    (fetchEvents s r).loading = s.loading := by
  cases r <;> rfl

/-- The calendar fetch never touches the attached file. -/
theorem fetchEvents_preserves_imageFile (s : AppState) (r : CalResponse) :
    (fetchEvents s r).imageFile = s.imageFile := by
  cases r <;> rfl

/-! Section: C3: the submit guard is a no-op -/

/-- C3: whenever the trimmed question is empty and no image file is
attached, or a submission is already in flight, `handleSubmit` is a no-op:
the state (messages, input, loading flag, image state) is returned
unchanged, no request is issued, and no action is performed. -/
theorem submit_rejected_is_noop (s : AppState) (now now2 : Nat)
    (resp : RagResponse) (calResp : CalResponse)
    (h : ((jsTrim s.question) = "" ∧ s.imageFile = none) ∨ s.loading = true) :
    handleSubmit s now now2 resp calResp =
      { state := s, request := none, trace := [] } := by
  have hg : submitRejected s = true := by
    rcases h with ⟨h1, h2⟩ | h
    · simp [submitRejected, h1, h2]
    · simp [submitRejected, h]
  simp [handleSubmit, hg]

/-- Witness for C3 at a concrete state: question `"  "` trims to empty and
no file is attached, so the submit leaves everything untouched. -/
theorem submit_rejected_is_noop_witness :
    handleSubmit
      { messages := [], question := "  ", loading := false, imageFile := none,
        imagePreviewUrl := none, calendarEvents := [] } 1 2 .networkError .failure =
      { state := { messages := [], question := "  ", loading := false,
                   imageFile := none, imagePreviewUrl := none, calendarEvents := [] },
        request := none, trace := [] } :=
  submit_rejected_is_noop _ 1 2 .networkError .failure (Or.inl ⟨by decide, rfl⟩)

/-! Section: C7: calendar event fetch replaces the whole list -/

/-- C7: on a successful calendar fetch the event list is replaced entirely
by the response's events (empty when the field is absent); on any failure
it is cleared to empty. The new list never depends on the old one (no
partial merge), no other state field changes, and in particular no
user-visible message is produced. -/
theorem fetch_events_replaces_list (s : AppState) (resp : CalResponse) :
    ((fetchEvents s resp).calendarEvents =
      match resp with
      | .success events => events.getD []
      | .failure => [])
    ∧ fetchEvents s resp = { s with calendarEvents := (fetchEvents s resp).calendarEvents }
    ∧ (∀ l, (fetchEvents { s with calendarEvents := l } resp).calendarEvents
          = (fetchEvents s resp).calendarEvents)
    ∧ (fetchEvents s resp).messages = s.messages := by
  cases resp <;> simp [fetchEvents]

/-! Section: C8: the message sequence is append-only -/

/-- C8: every pipeline operation only appends to the message sequence (the
old sequence is always a prefix of the new one, for the rejected, success,
and failure paths alike, and for the calendar fetch); the `thinking` row is
a render-time overlay present exactly when the loading flag is set and the
rendered rows are the stored messages in insertion order followed by that
optional overlay. -/
theorem messages_append_only (s : AppState) (now now2 : Nat)
    (resp : RagResponse) (calResp : CalResponse) :
    (∃ t, (handleSubmit s now now2 resp calResp).state.messages = s.messages ++ t)
    ∧ (fetchEvents s calResp).messages = s.messages
    ∧ renderRows s = s.messages.map ChatRow.message
        ++ (if s.loading then [ChatRow.thinking] else [])
    ∧ (ChatRow.thinking ∈ renderRows s ↔ s.loading = true) := by
  refine ⟨?_, fetchEvents_preserves_messages s calResp, rfl, ?_⟩
  · unfold handleSubmit
    split
    · exact ⟨[], by simp⟩
    · cases resp with
      | success data =>
        refine ⟨[mkUserMessage s now, mkAgentMessage now2 data], ?_⟩
        cases h : (parseIntent data == "reminder") <;> cases calResp <;>
          simp [fetchEvents, h]
      | httpError status =>
        exact ⟨[mkUserMessage s now, mkApologyMessage now2], by simp⟩
      | networkError =>
        exact ⟨[mkUserMessage s now, mkApologyMessage now2], by simp⟩
      | parseError =>
        exact ⟨[mkUserMessage s now, mkApologyMessage now2], by simp⟩
  · cases h : s.loading <;> simp [renderRows, h]

/-! Section: C5: failure path appends exactly one apology message -/

/-- C5: on any question-answering failure (non-2xx status, network error,
or body parse failure) of an accepted submit, exactly one new agent message
is appended after the optimistic user message; its content is the fixed
Korean apology text, it carries no source image and no variant, and the
pipeline returns to idle: loading cleared and attached file cleared. -/
theorem failure_appends_single_apology (s : AppState) (now now2 : Nat)
    (resp : RagResponse) (calResp : CalResponse)
    (hacc : submitRejected s = false)
    (hfail : ∀ data, resp ≠ RagResponse.success data) :
    (handleSubmit s now now2 resp calResp).state.messages
      = s.messages ++ [mkUserMessage s now, mkApologyMessage now2]
    ∧ (mkUserMessage s now).role = "user"
    ∧ (mkApologyMessage now2).role = "agent"
    ∧ (mkApologyMessage now2).content = apologyText
    ∧ (mkApologyMessage now2).sourceImage = none
    ∧ (mkApologyMessage now2).variant = none
    ∧ (handleSubmit s now now2 resp calResp).state.loading = false
    ∧ (handleSubmit s now now2 resp calResp).state.imageFile = none := by
  cases resp with
  | success data => exact absurd rfl (hfail data)
  | httpError status =>
      refine ⟨?_, rfl, rfl, rfl, rfl, rfl, ?_, ?_⟩ <;> simp [handleSubmit, hacc]
  | networkError =>
      refine ⟨?_, rfl, rfl, rfl, rfl, rfl, ?_, ?_⟩ <;> simp [handleSubmit, hacc]
  | parseError =>
      refine ⟨?_, rfl, rfl, rfl, rfl, rfl, ?_, ?_⟩ <;> simp [handleSubmit, hacc]

/-- Witness for C5 at a concrete accepted submit hitting a network error. -/
theorem failure_appends_single_apology_witness :
    (handleSubmit demoState 1 2 .networkError .failure).state.messages
      = demoState.messages ++ [mkUserMessage demoState 1, mkApologyMessage 2]
    ∧ (mkUserMessage demoState 1).role = "user"
    ∧ (mkApologyMessage 2).role = "agent"
    ∧ (mkApologyMessage 2).content = apologyText
    ∧ (mkApologyMessage 2).sourceImage = none
    ∧ (mkApologyMessage 2).variant = none
    ∧ (handleSubmit demoState 1 2 .networkError .failure).state.loading = false
    ∧ (handleSubmit demoState 1 2 .networkError .failure).state.imageFile = none :=
  failure_appends_single_apology demoState 1 2 .networkError .failure
    (by decide) (fun _ h => nomatch h)

/-! Section: C4: success path parsing -/

/-- C4: on a successful response of an accepted submit, the appended agent
message is derived from the parsed payload: the answer text is the `answer`
field, falling back to `result`, falling back to the fixed placeholder; the
intent defaults to `"rag"` when absent (an absent intent behaves exactly
like `intent = "rag"`); and the agent message's variant is `reminder` if
and only if the parsed intent is `"reminder"`. -/
theorem success_parses_payload (s : AppState) (now now2 : Nat)
    (data : RagPayload) (calResp : CalResponse)
    (hacc : submitRejected s = false) :
    (handleSubmit s now now2 (.success data) calResp).state.messages
      = s.messages ++ [mkUserMessage s now, mkAgentMessage now2 data]
    ∧ parseAnswerText data = (match data.answer, data.result with
        | some a, _ => a
        | none, some r => r
        | none, none => "응답을 가져오지 못했어요.")
    ∧ parseIntent data = (match data.intent with
        | some i => i
        | none => "rag")
    ∧ ((mkAgentMessage now2 data).variant = some "reminder"
        ↔ parseIntent data = "reminder")
    ∧ (data.intent = none →
        handleSubmit s now now2 (.success { data with intent := some "rag" }) calResp
          = handleSubmit s now now2 (.success data) calResp) := by
  refine ⟨?_, ?_, ?_, ?_, ?_⟩
  · cases h : (parseIntent data == "reminder") <;> cases calResp <;>
      simp [handleSubmit, hacc, fetchEvents, h]
  · cases ha : data.answer <;> cases hr : data.result <;>
      simp [parseAnswerText, ha, hr, Option.or]
  · cases hi : data.intent <;> simp [parseIntent, hi]
  · cases h : (parseIntent data == "reminder")
    · constructor
      · intro hv
        simp [mkAgentMessage, h] at hv
      · intro hEq
        have hb : (parseIntent data == "reminder") = true := beq_iff_eq.mpr hEq
        rw [h] at hb
        cases hb
    · constructor
      · intro _
        exact beq_iff_eq.mp h
      · intro _
        simp [mkAgentMessage, h]
  · intro hi
    refine handleSubmit_success_congr s now now2 calResp _ _ ?_ ?_
    · simp [mkAgentMessage, parseAnswerText, parseIntent, parsePages, hi]
    · simp [parseIntent, hi]

/-- Witness for C4 at a concrete payload with absent `answer` and absent
`intent`: the answer text falls back to `result` and the variant is not
`reminder`. -/
theorem success_parses_payload_witness :
    (handleSubmit demoState 1 2 (.success { result := some "res" }) .failure).state.messages
      = demoState.messages
        ++ [mkUserMessage demoState 1, mkAgentMessage 2 { result := some "res" }]
    ∧ parseAnswerText { result := some "res" } = "res"
    ∧ parseIntent { result := some "res" } = "rag"
    ∧ ((mkAgentMessage 2 { result := some "res" }).variant = some "reminder"
        ↔ parseIntent { result := some "res" } = "reminder")
    ∧ handleSubmit demoState 1 2
        (.success { result := some "res", intent := some "rag" }) .failure
        = handleSubmit demoState 1 2 (.success { result := some "res" }) .failure := by
  have h := success_parses_payload demoState 1 2 { result := some "res" } .failure (by decide)
  exact ⟨h.1, h.2.1, h.2.2.1, h.2.2.2.1, h.2.2.2.2 rfl⟩

/-! Section: C10: absent or non-array pages field -/

/-- C10: when the `pages` field of a successful payload is absent or not an
array, the pipeline behaves exactly as if the cited-page list were the
empty array: the whole submit result is identical, and the appended agent
message carries no citation decoration and no source image; the success
path completes normally. -/
theorem pages_not_array_like_empty (s : AppState) (now now2 : Nat)
    (data : RagPayload) (calResp : CalResponse)
    (hacc : submitRejected s = false)
    (hp : data.pages = none ∨ data.pages = some PagesValue.nonArray) :
    handleSubmit s now now2 (.success data) calResp
      = handleSubmit s now now2 (.success { data with pages := some (.arr []) }) calResp
    ∧ (mkAgentMessage now2 data).sourceImage = none
    ∧ (mkAgentMessage now2 data).content = parseAnswerText data
    ∧ (handleSubmit s now now2 (.success data) calResp).state.messages
        = s.messages ++ [mkUserMessage s now, mkAgentMessage now2 data] := by
  have hpp : parsePages data = [] := by
    rcases hp with h | h <;> simp [parsePages, h]
  have hpp2 : parsePages { data with pages := some (PagesValue.arr []) } = [] := rfl
  refine ⟨?_, ?_, ?_, ?_⟩
  · refine handleSubmit_success_congr s now now2 calResp _ _ ?_ ?_
    · cases h : (parseIntent data == "reminder") <;>
        simp [mkAgentMessage, hpp, hpp2, parseAnswerText, parseIntent, h]
    · rfl
  · cases h : (parseIntent data == "reminder") <;> simp [mkAgentMessage, hpp, h]
  · cases h : (parseIntent data == "reminder") <;> simp [mkAgentMessage, hpp, h]
  · cases h : (parseIntent data == "reminder") <;> cases calResp <;>
      simp [handleSubmit, hacc, fetchEvents, h]

/-- Witness for C10 at a concrete payload whose `pages` field is a
non-array value. -/
theorem pages_not_array_like_empty_witness :
    handleSubmit demoState 1 2
        (.success { answer := some "a", pages := some .nonArray }) .failure
      = handleSubmit demoState 1 2
        (.success { answer := some "a", pages := some (.arr []) }) .failure
    ∧ (mkAgentMessage 2 { answer := some "a", pages := some .nonArray }).sourceImage = none
    ∧ (mkAgentMessage 2 { answer := some "a", pages := some .nonArray }).content
        = parseAnswerText { answer := some "a", pages := some .nonArray }
    ∧ (handleSubmit demoState 1 2
        (.success { answer := some "a", pages := some .nonArray }) .failure).state.messages
        = demoState.messages
          ++ [mkUserMessage demoState 1,
              mkAgentMessage 2 { answer := some "a", pages := some .nonArray }] :=
  pages_not_array_like_empty demoState 1 2
    { answer := some "a", pages := some .nonArray } .failure (by decide) (Or.inr rfl)

/-! Section: C1: citation line -/

/-- C1 fails as stated: for a successful non-reminder response with a
non-empty cited-pages list whose first page has page number `0`, the answer
text does not contain `참고:`, yet no citation line referencing the page
number is appended — the guard on `App.jsx` line 203 also requires the
page number to be JavaScript-truthy, and `0` is falsy. -/
theorem citation_iff_counterexample :
    parseIntent pageZeroData ≠ "reminder"
    ∧ parsePages pageZeroData = [{ page := some 0 }]
    ∧ jsIncludes (parseAnswerText pageZeroData) "참고:" = false
    ∧ (handleSubmit demoState 1 2 (.success pageZeroData) .failure).state.messages.map
        Message.content = ["질문", parseAnswerText pageZeroData]
    ∧ parseAnswerText pageZeroData
        ≠ parseAnswerText pageZeroData ++ "\n\n(참고: 매뉴얼 p.0 기반 답변)" := by
  exact ⟨by decide, by decide, by decide, by decide, by decide⟩

/-- C1 amended: for every successful non-reminder response with a non-empty
cited-pages list, the appended agent message's content equals the answer
text with the citation line referencing the first page's page number
(`page`, falling back to `page_number`) appended exactly when that page
number is present and truthy (nonzero) and the answer text does not already
contain `참고:`; otherwise the content is the answer text unchanged. -/
theorem citation_iff_amended (s : AppState) (now now2 : Nat) (data : RagPayload)
    (calResp : CalResponse) (firstPage : PageInfo) (rest : List PageInfo)
    (hacc : submitRejected s = false)
    (hnr : parseIntent data ≠ "reminder")
    (hp : parsePages data = firstPage :: rest) :
    (handleSubmit s now now2 (.success data) calResp).state.messages
      = s.messages ++ [mkUserMessage s now, mkAgentMessage now2 data]
    ∧ (jsTruthyNum (firstPage.page.or firstPage.page_number) = true →
        jsIncludes (parseAnswerText data) "참고:" = false →
        (mkAgentMessage now2 data).content
          = parseAnswerText data ++ "\n\n(참고: 매뉴얼 p."
            ++ toString ((firstPage.page.or firstPage.page_number).getD 0)
            ++ " 기반 답변)")
    ∧ (jsIncludes (parseAnswerText data) "참고:" = true →
        (mkAgentMessage now2 data).content = parseAnswerText data)
    ∧ (jsTruthyNum (firstPage.page.or firstPage.page_number) = false →
        (mkAgentMessage now2 data).content = parseAnswerText data) := by
  have hbr : (parseIntent data == "reminder") = false := by
    rw [beq_eq_false_iff_ne]
    exact hnr
  refine ⟨?_, ?_, ?_, ?_⟩
  · cases calResp <;> simp [handleSubmit, hacc, fetchEvents, hbr]
  · intro h1 h2
    simp [mkAgentMessage, hbr, hp, decorateAnswer, h1, h2]
  · intro h
    simp [mkAgentMessage, hbr, hp, decorateAnswer, h]
  · intro h
    simp [mkAgentMessage, hbr, hp, decorateAnswer, h]

/-- Witness for the amended C1 at a concrete payload: first cited page has
page number 7, the answer lacks `참고:`, and the stored content ends with
the `p.7` citation line. -/
theorem citation_iff_amended_witness :
    (handleSubmit demoState 1 2 (.success pageSevenData) .failure).state.messages
      = demoState.messages ++ [mkUserMessage demoState 1, mkAgentMessage 2 pageSevenData]
    ∧ (mkAgentMessage 2 pageSevenData).content = "모름\n\n(참고: 매뉴얼 p.7 기반 답변)" := by
  have h := citation_iff_amended demoState 1 2 pageSevenData .failure
    { page := some 7 } [] (by decide) (by decide) (by decide)
  exact ⟨h.1, (h.2.1 (by decide) (by decide)).trans (by decide)⟩

/-! Section: C2: source-image resolution and rendering -/

/-- C2 fails as stated: a cited page whose embedded-image field is present
but equal to the empty string is skipped by the resolution (JavaScript
truthiness, not mere presence), so the resolved source is the URL field,
not the present embedded image. -/
theorem image_resolution_counterexample :
    emptyBase64Page.image_base64 = some ""
    ∧ resolveSourceImage emptyBase64Page = some "https://x/y.png"
    ∧ resolveSourceImage emptyBase64Page ≠ emptyBase64Page.image_base64 := by
  exact ⟨rfl, by decide, by decide⟩

/-- C2 amended: the resolved source image is the embedded base64 image if
present and non-empty; otherwise, the first non-null value among
`image_url`, `page_image`, `pageImage`, provided that value is non-empty;
otherwise the filesystem path if present and non-empty; otherwise none.
At render time a value is used as-is exactly when it starts with `data:`
or `http`; otherwise it is prefixed with the backend origin plus exactly
one `/` separator when it does not already start with `/`. -/
theorem image_resolution_amended (p : PageInfo) (v : String) :
    (jsTruthyStr p.image_base64 = true → resolveSourceImage p = p.image_base64)
    ∧ (jsTruthyStr p.image_base64 = false →
        jsTruthyStr ((p.image_url.or p.page_image).or p.pageImage) = true →
        resolveSourceImage p = (p.image_url.or p.page_image).or p.pageImage)
    ∧ (jsTruthyStr p.image_base64 = false →
        jsTruthyStr ((p.image_url.or p.page_image).or p.pageImage) = false →
        jsTruthyStr p.image_path = true →
        resolveSourceImage p = p.image_path)
    ∧ (jsTruthyStr p.image_base64 = false →
        jsTruthyStr ((p.image_url.or p.page_image).or p.pageImage) = false →
        jsTruthyStr p.image_path = false →
        resolveSourceImage p = none)
    ∧ (jsStartsWith v "data:" = true ∨ jsStartsWith v "http" = true → renderSrc v = v)
    ∧ (jsStartsWith v "data:" = false → jsStartsWith v "http" = false →
        jsStartsWith v "/" = true → renderSrc v = BACKEND_BASE_URL ++ v)
    ∧ (jsStartsWith v "data:" = false → jsStartsWith v "http" = false →
        jsStartsWith v "/" = false → renderSrc v = BACKEND_BASE_URL ++ "/" ++ v) := by
  refine ⟨?_, ?_, ?_, ?_, ?_, ?_, ?_⟩
  · intro h1
    simp [resolveSourceImage, h1]
  · intro h1 h2
    simp [resolveSourceImage, h1, h2]
  · intro h1 h2 h3
    simp [resolveSourceImage, h1, h2, h3]
  · intro h1 h2 h3
    simp [resolveSourceImage, h1, h2, h3]
  · rintro (h | h) <;> simp [renderSrc, h]
  · intro h1 h2 h3
    simp [renderSrc, h1, h2, h3]
  · intro h1 h2 h3
    simp [renderSrc, h1, h2, h3]

/-- Witness for the amended C2: a present non-empty embedded image wins,
and a backend-relative value is prefixed with the origin and one `/`. -/
theorem image_resolution_amended_witness :
    resolveSourceImage { image_base64 := some "data:image/png;base64,AA" }
      = some "data:image/png;base64,AA"
    ∧ renderSrc "manual_images/a.png" = BACKEND_BASE_URL ++ "/" ++ "manual_images/a.png" := by
  have h := image_resolution_amended
    { image_base64 := some "data:image/png;base64,AA" } "manual_images/a.png"
  exact ⟨h.1 (by decide), h.2.2.2.2.2.2 (by decide) (by decide) (by decide)⟩

/-! Section: C9: reminder-triggered calendar refresh is awaited -/

/-- C9: on a successful reminder-intent response of an accepted submit, the
handler's execution trace performs the awaited calendar refresh strictly
before clearing the loading flag: the completed fetch sits at position 6
and every `setLoading false` step comes after it, so the pipeline never
returns to idle while the reminder-triggered event fetch is pending. -/
theorem reminder_fetch_before_idle (s : AppState) (now now2 : Nat)
    (data : RagPayload) (calResp : CalResponse)
    (hacc : submitRejected s = false)
    (hrem : parseIntent data = "reminder") :
    (handleSubmit s now now2 (.success data) calResp).trace
      = [.appendMessage (mkUserMessage s now), .setQuestion "", .setLoading true,
         .setImagePreviewUrl none, .sendRequest (mkRequest s),
         .appendMessage (mkAgentMessage now2 data), .fetchCalendarEvents,
         .setLoading false, .setImageFile none, .clearFileInput]
    ∧ (handleSubmit s now now2 (.success data) calResp).trace[6]?
        = some Action.fetchCalendarEvents
    ∧ (∀ i, (handleSubmit s now now2 (.success data) calResp).trace[i]?
          = some (Action.setLoading false) → 6 < i)
    ∧ (handleSubmit s now now2 (.success data) calResp).state.loading = false := by
  have hbr : (parseIntent data == "reminder") = true := beq_iff_eq.mpr hrem
  have ht : (handleSubmit s now now2 (.success data) calResp).trace
      = [.appendMessage (mkUserMessage s now), .setQuestion "", .setLoading true,
         .setImagePreviewUrl none, .sendRequest (mkRequest s),
         .appendMessage (mkAgentMessage now2 data), .fetchCalendarEvents,
         .setLoading false, .setImageFile none, .clearFileInput] := by
    simp [handleSubmit, hacc, hbr]
  refine ⟨ht, ?_, ?_, ?_⟩
  · rw [ht]
    rfl
  · intro i hi
    rw [ht] at hi
    rcases i with _|_|_|_|_|_|_|_|_|_|n
    · exact absurd hi (by simp)
    · exact absurd hi (by simp)
    · exact absurd hi (by simp)
    · exact absurd hi (by simp)
    · exact absurd hi (by simp)
    · exact absurd hi (by simp)
    · exact absurd hi (by simp)
    · omega
    · exact absurd hi (by simp)
    · exact absurd hi (by simp)
    · exact absurd hi (by simp)
  · cases calResp <;> simp [handleSubmit, hacc, hbr, fetchEvents]

/-- Witness for C9 at a concrete reminder-intent submit. -/
theorem reminder_fetch_before_idle_witness :
    (handleSubmit demoState 1 2
        (.success { answer := some "a", intent := some "reminder" })
        (.success (some []))).trace[6]? = some Action.fetchCalendarEvents
    ∧ 6 < 7 := by
  have h := reminder_fetch_before_idle demoState 1 2
    { answer := some "a", intent := some "reminder" } (.success (some []))
    (by decide) (by decide)
  exact ⟨h.2.1, h.2.2.1 7 (by decide)⟩

/-! Section: C6: calendar grid -/

/-- Every month length produced by `daysInMonth` is positive. -/
theorem daysInMonth_pos (year monthIndex : Nat) :
    0 < daysInMonth year monthIndex := by
  unfold daysInMonth
  split <;> try omega
  split <;> omega

/-- The cell list of `calendar` is leading `none` padding, the real cells,
and trailing `none` padding, for some trailing pad count. -/
theorem calendar_cells_shape (year monthIndex todayDay : Nat) :
    ∃ pad, (calendar year monthIndex todayDay).cells
      = List.replicate (dayOfWeek year monthIndex 1) (none : Option CalendarCell)
        ++ (List.range (daysInMonth year monthIndex)).map (fun i =>
             some { key := formatISODate year monthIndex (i + 1)
                    label := i + 1
                    isToday := (i + 1) == todayDay })
        ++ List.replicate pad none :=
  ⟨_, rfl⟩

/-- Taking the `isNone` prefix of `none` padding followed by a `some` cell
recovers exactly the padding. -/
theorem takeWhile_replicate_none_append {α : Type} (n : Nat) (a : α)
    (l2 : List (Option α)) :
    ((List.replicate n (none : Option α) ++ (some a :: l2)).takeWhile Option.isNone)
      = List.replicate n none := by
  induction n with
  | zero => simp [List.takeWhile_cons]
  | succ n ih => simp [List.replicate_succ, List.takeWhile_cons, ih]

/-- Dropping the `none` entries of pure padding yields nothing. -/
theorem filterMap_id_replicate_none {α : Type} (n : Nat) :
    (List.replicate n (none : Option α)).filterMap id = [] := by
  induction n with
  | zero => rfl
  | succ n ih => simp [List.replicate_succ, ih]

/-- Dropping the `none` entries of an all-`some` list recovers the values. -/
theorem filterMap_id_map_some {α β : Type} (f : α → β) (l : List α) :
    (l.map (fun x => some (f x))).filterMap id = l.map f := by
  induction l with
  | nil => rfl
  | cons a t ih => simp [ih]

/-- C6: for every valid reference date, the calendar grid's total cell
count is a multiple of 7; the number of leading empty cells equals the
weekday index (Sunday = 0) of day 1 of the month; the real cells enumerate
days 1 through the month's day count in order; and each real cell carries
the `YYYY-MM-DD` key produced by `formatISODate` for its day, with
`isToday` set exactly on the reference date's day. -/
theorem calendar_grid_correct (year monthIndex todayDay : Nat)
    (hm : monthIndex ≤ 11) (hd1 : 1 ≤ todayDay)
    (hd2 : todayDay ≤ daysInMonth year monthIndex) :
    (calendar year monthIndex todayDay).cells.length % 7 = 0
    ∧ ((calendar year monthIndex todayDay).cells.takeWhile Option.isNone).length
        = dayOfWeek year monthIndex 1
    ∧ (calendar year monthIndex todayDay).cells.filterMap id
        = (List.range (daysInMonth year monthIndex)).map (fun i =>
            { key := formatISODate year monthIndex (i + 1)
              label := i + 1
              isToday := (i + 1) == todayDay })
    ∧ (∀ c ∈ (calendar year monthIndex todayDay).cells.filterMap id,
        c.key = formatISODate year monthIndex c.label
        ∧ (c.isToday = true ↔ c.label = todayDay)) := by
  obtain ⟨pad, hcells⟩ := calendar_cells_shape year monthIndex todayDay
  have hfm : (calendar year monthIndex todayDay).cells.filterMap id
      = (List.range (daysInMonth year monthIndex)).map (fun i =>
          { key := formatISODate year monthIndex (i + 1)
            label := i + 1
            isToday := (i + 1) == todayDay }) := by
    rw [hcells]
    simp only [List.filterMap_append, filterMap_id_replicate_none,
      filterMap_id_map_some]
    simp
  refine ⟨?_, ?_, hfm, ?_⟩
  · simp [calendar]
    omega
  · obtain ⟨d, hd⟩ : ∃ d, daysInMonth year monthIndex = d + 1 :=
      ⟨daysInMonth year monthIndex - 1, by
        have := daysInMonth_pos year monthIndex
        omega⟩
    rw [hcells, hd, List.range_succ_eq_map]
    simp only [List.map_cons, List.cons_append, List.append_assoc]
    rw [takeWhile_replicate_none_append]
    simp
  · intro c hc
    rw [hfm] at hc
    simp only [List.mem_map, List.mem_range] at hc
    obtain ⟨i, hi, rfl⟩ := hc
    exact ⟨rfl, by simp⟩

/-- Witness for C6 at the concrete reference date 2026-10-11: October 2026
starts on a Thursday (weekday 4), has 31 days, and the grid has 35 cells. -/
theorem calendar_grid_correct_witness :
    (calendar 2026 9 11).cells.length % 7 = 0
    ∧ ((calendar 2026 9 11).cells.takeWhile Option.isNone).length
        = dayOfWeek 2026 9 1
    ∧ ({ key := "2026-10-11", label := 11, isToday := true } : CalendarCell).key
        = formatISODate 2026 9 11
    ∧ (({ key := "2026-10-11", label := 11, isToday := true } : CalendarCell).isToday
        = true ↔ ({ key := "2026-10-11", label := 11, isToday := true } : CalendarCell).label = 11) := by
  have h := calendar_grid_correct 2026 9 11 (by decide) (by decide) (by decide)
  have hcell := h.2.2.2 { key := "2026-10-11", label := 11, isToday := true } (by decide)
  exact ⟨h.1, h.2.1, hcell.1, hcell.2⟩

end Mindual
